import Mathlib

/-!
Shallow embedding of the `dfpRefresh` engine and the `dfpParseDuration`
service of the angular-dfp repository (src/angular-dfp.js), together with
theorems settling the specification claims about them.

JavaScript semantics are modelled explicitly: a thrown exception is an
`Except.error` value, state mutated before a throw stays mutated, and
outbound calls to the dispatcher (`googletag.pubads().refresh`) and to
`console.warn` are recorded as an event trace.
-/

/-- Exceptions raised by the embedded code: `DFPRefreshError`,
JavaScript `TypeError`, and `DFPDurationError`. -/
inductive JSError where
  | refreshError (msg : String)
  | typeError (msg : String)
  | durationError (msg : String)
  deriving Repr, DecidableEq

/-- An argument that is a JavaScript number, a string, or something else
(the `dfpParseDuration` service distinguishes exactly these three cases). -/
inductive JSInput where
  | num (n : Int)
  | str (s : String)
  | other
  deriving Repr, DecidableEq

/-! ## The `dfpParseDuration` service (src/angular-dfp.js lines 90-148)

The source matches the unanchored regular expression
`/(\d+)(m?s|min|h)?/` against the input string. We embed the regex by
hand: the leftmost maximal digit run is located, and then the optional
unit group is tried in the alternation order of the regex
(`m?s` preferring a present `m`, then `min`, then `h`). -/

/-- Maximal run of digit characters at the head of a character list,
together with the remaining characters. -/
def digitRun : List Char → List Char × List Char
  | [] => ([], [])
  | c :: cs =>
    if c.isDigit then
      let p := digitRun cs
      (c :: p.1, p.2)
    else ([], c :: cs)

/-- Leftmost match of `\d+`: skip to the first digit and take the
maximal digit run there; `none` when the string holds no digit. -/
def findNumber : List Char → Option (List Char × List Char)
  | [] => none
  | c :: cs => if c.isDigit then some (digitRun (c :: cs)) else findNumber cs

/-- The optional unit group `(m?s|min|h)?` matched at a position, in the
alternation order of the regex. -/
def unitMatch : List Char → Option String
  | 'm' :: 's' :: _ => some "ms"
  | 's' :: _ => some "s"
  | 'm' :: 'i' :: 'n' :: _ => some "min"
  | 'h' :: _ => some "h"
  | _ => none

/-- Digit characters to the natural number they denote (base 10),
as done by `parseInt(match[1], 10)`. -/
def digitsToNat (ds : List Char) : Nat :=
  ds.foldl (fun a c => a * 10 + (c.toNat - 48)) 0

/-- The JavaScript match array for `/(\d+)(m?s|min|h)?/`. A JavaScript
match array for a regex with two groups always has length 3: entry 0 is
the full match, entry 1 the digit group, entry 2 the unit group
(`undefined`, i.e. `none`, when the optional group did not participate). -/
def jsMatchDuration (s : String) : Option (List (Option String)) :=
  match findNumber s.data with
  | none => none
  | some (ds, rest) =>
    let u := unitMatch rest
    let full := String.mk ds ++ u.getD ""
    some [some full, some (String.mk ds), u]

/-- `convertToMilliseconds(time, unit)` from the source. The fall-through
branch (reached for unit `h`, but also for an `undefined` unit, where the
console assertion `/^(m?s|min|h)$/.test(unit)` merely logs) multiplies by
an hour. -/
def convertToMilliseconds (time : Int) (unit : Option String) : Int :=
  if unit = some "ms" then time
  else if unit = some "s" then time * 1000
  else if unit = some "min" then time * 60 * 1000
  else time * 60 * 60 * 1000

/-- `convert(match)` from the source: `match.length === 2` is compared
against the always-3-element match array. -/
def convert (m : List (Option String)) : Int :=
  let time : Int := Int.ofNat (digitsToNat (((m[1]?).getD none).getD "").data)
  if m.length = 2 then time
  else convertToMilliseconds time ((m[2]?).getD none)

/-- `dfpParseDuration(interval)` from the source: numbers pass through,
non-strings raise a TypeError, strings without a regex match raise a
`DFPDurationError`, and matched strings go through `convert`. -/
def dfpParseDuration : JSInput → Except JSError Int
  | .num n => .ok n
  | .str s =>
    match jsMatchDuration s with
    | none => .error (.durationError ("Invalid interval: " ++ s))
    | some m => .ok (convert m)
  | .other => .error (.typeError "must be of number or string type")

/-! ## The `dfpRefresh` engine state (src/angular-dfp.js lines 879-1678) -/

namespace AngularDfp

/-- One buffered refresh request: the ad slot and its deferred promise,
identified by a number so that promise resolution can be traced. Slots
passed by callers are never `null`, so the slot is a plain string. -/
structure Task where
  slot : String
  deferredId : Nat
  deriving Repr, DecidableEq

/-- Observable effects of the engine: the two outbound dispatcher calls,
promise resolutions, and `console.warn` notices. -/
inductive Event where
  | dispatchAll
  | dispatchBatch (slots : List String)
  | resolve (deferredId : Nat)
  | warn (msg : String)
  deriving Repr, DecidableEq

/-- A JavaScript number-or-not value, as needed by the priority table:
reading an absent property yields `undefinedVal`, and `Math.max` over an
`undefined` operand yields `NaN`. -/
inductive JsVal where
  | undefinedVal
  | num (n : Int)
  | nan
  deriving Repr, DecidableEq

/-- The configuration object `self` of `dfpRefreshProvider`: nullable
numeric settings plus the string-keyed `priority` object. The provider
object has no `intervals` property (that map is a local of `$get`),
which matters for `hasSlotInterval`. -/
structure SelfConfig where
  bufferInterval : Option Int
  bufferBarrier : Option Int
  oneShotBarrier : Bool
  refreshInterval : Option Int
  priority : List (String × JsVal)
  deriving Repr, DecidableEq

/-- The sealed `isEnabled` object with its three lowercase keys. -/
structure EnabledFlags where
  refresh : Bool
  interval : Bool
  barrier : Bool
  deriving Repr, DecidableEq

/-- The state owned by the `$get` closure: the configuration, the task
buffer (entries become `null` after a global sweep), the `intervals`
map (its fixed keys `refresh` and `buffer` plus the dynamic per-slot
keys), the `isEnabled` flags, and counters producing fresh timer and
deferred identities. -/
structure RefreshState where
  self : SelfConfig
  buffer : List (Option Task)
  intervalsRefresh : Option Nat
  intervalsBuffer : Option Nat
  slotIntervals : List (String × Nat)
  isEnabled : EnabledFlags
  nextTimer : Nat
  nextDeferred : Nat
  deriving Repr, DecidableEq

/-- Computations over the engine state: a result or a thrown exception,
the state after the computation (mutations before a throw persist, as in
JavaScript), and the emitted event trace. -/
abbrev M (α : Type) : Type := RefreshState → Except JSError α × RefreshState × List Event

instance : Monad M where
  pure a := fun s => (Except.ok a, s, [])
  bind m f := fun s =>
    match m s with
    | (Except.error e, s1, ev1) => (Except.error e, s1, ev1)
    | (Except.ok a, s1, ev1) =>
      match f a s1 with
      | (r, s2, ev2) => (r, s2, ev1 ++ ev2)

/-- Read the current state. -/
def mget : M RefreshState := fun s => (Except.ok s, s, [])

/-- Replace the current state. -/
def mset (s2 : RefreshState) : M Unit := fun _ => (Except.ok (), s2, [])

/-- Apply a mutation to the current state. -/
def mmodify (f : RefreshState → RefreshState) : M Unit :=
  fun s => (Except.ok (), f s, [])

/-- Record an observable event. -/
def memit (e : Event) : M Unit := fun s => (Except.ok (), s, [e])

/-- Throw a JavaScript exception. -/
def mthrow {α : Type} (e : JSError) : M α := fun s => (Except.error e, s, [])

/-! ## The `Options` object and option validation

`Options` is frozen as `{REFRESH: 'refresh', INTERVAL: 'interval',
BARRIER: 'barrier'}`. `Object.keys(Options)` yields the uppercase keys;
the `in` operator tests against those keys; the members
`Options.REFRESH` etc. are the lowercase values. -/

/-- `Object.keys(Options)`, in insertion order. -/
def OptionsKeys : List String := ["REFRESH", "INTERVAL", "BARRIER"]

namespace Options

/-- The value of `Options.REFRESH`. -/
def REFRESH : String := "refresh"

/-- The value of `Options.INTERVAL`. -/
def INTERVAL : String := "interval"

/-- The value of `Options.BARRIER`. -/
def BARRIER : String := "barrier"

end Options

/-- `ensureValidOption(option)`: throws a `DFPRefreshError` unless
`option in Options`, i.e. unless the argument is one of the uppercase
property names of the `Options` object. -/
def ensureValidOption (option : String) : M Unit :=
  if OptionsKeys.contains option then pure ()
  else mthrow (.refreshError ("Invalid option " ++ option))

/-- `ensureValidPriority(priority)`: throws unless the argument is of
number type (`NaN` is of number type in JavaScript; `undefined` is the
non-number case reachable in the embedding). -/
def ensureValidPriority (priority : JsVal) : M Unit :=
  match priority with
  | .undefinedVal => mthrow (.refreshError "Priority is not a number")
  | _ => pure ()

/-- Property read on the sealed `isEnabled` object: its keys are the
lowercase names; any other key reads as `undefined` (`none`). -/
def enabledLookup (e : EnabledFlags) : String → Option Bool
  | "refresh" => some e.refresh
  | "interval" => some e.interval
  | "barrier" => some e.barrier
  | _ => none

/-- Property read on the `self.priority` object; an absent key reads as
`undefined`. -/
def priorityLookup (cfg : SelfConfig) (o : String) : JsVal :=
  match cfg.priority.lookup o with
  | some v => v
  | none => .undefinedVal

/-- Property write on a string-keyed object: overwrite the key when
present, append it otherwise. -/
def assocSet {β : Type} (l : List (String × β)) (k : String) (v : β) :
    List (String × β) :=
  match l with
  | [] => [(k, v)]
  | (k2, v2) :: rest => if k2 = k then (k, v) :: rest else (k2, v2) :: assocSet rest k v

/-! ## Accessors of the engine (effect-free in the source) -/

/-- `dfpRefresh.hasBufferInterval()`: `self.bufferInterval !== null`. -/
def hasBufferInterval (s : RefreshState) : Bool := s.self.bufferInterval.isSome

/-- `dfpRefresh.hasBufferBarrier()`: `self.bufferBarrier !== null`. -/
def hasBufferBarrier (s : RefreshState) : Bool := s.self.bufferBarrier.isSome

/-- `dfpRefresh.hasRefreshInterval()`: `self.refreshInterval !== null`. -/
def hasRefreshInterval (s : RefreshState) : Bool := s.self.refreshInterval.isSome

/-- `dfpRefresh.getBufferInterval()`. -/
def getBufferInterval (s : RefreshState) : Option Int := s.self.bufferInterval

/-- `dfpRefresh.getBufferBarrier()`. -/
def getBufferBarrier (s : RefreshState) : Option Int := s.self.bufferBarrier

/-- `dfpRefresh.getRefreshInterval()`. -/
def getRefreshInterval (s : RefreshState) : Option Int := s.self.refreshInterval

/-- `dfpRefresh.bufferIntervalIsEnabled()`: `isEnabled.interval`. -/
def bufferIntervalIsEnabled (s : RefreshState) : Bool := s.isEnabled.interval

/-- `dfpRefresh.refreshIntervalIsEnabled()`: `isEnabled.refresh`. -/
def refreshIntervalIsEnabled (s : RefreshState) : Bool := s.isEnabled.refresh

/-- `dfpRefresh.bufferBarrierIsEnabled()`: `isEnabled.barrier`. -/
def bufferBarrierIsEnabled (s : RefreshState) : Bool := s.isEnabled.barrier

/-- `dfpRefresh.bufferBarrierIsOneShot()`: `self.oneShotBarrier`. -/
def bufferBarrierIsOneShot (s : RefreshState) : Bool := s.self.oneShotBarrier

/-- `dfpRefresh.isEnabled(option)`: validates the option name against the
`Options` keys, then reads `isEnabled[option]` (an uppercase key passes
validation but reads as `undefined` on the sealed lowercase-keyed
object). -/
def isEnabledOp (option : String) : M (Option Bool) := do
  ensureValidOption option
  let s ← mget
  pure (enabledLookup s.isEnabled option)

/-- `dfpRefresh.isBuffering()`:
`[Options.BARRIER, Options.INTERVAL].some(dfpRefresh.isEnabled)`, with
`Array.prototype.some` evaluating the callback left to right and JS
truthiness applied to each result. -/
def isBuffering : M Bool := do
  let r1 ← isEnabledOp Options.BARRIER
  if r1.getD false then pure true
  else do
    let r2 ← isEnabledOp Options.INTERVAL
    pure (r2.getD false)

/-- `dfpRefresh.has(option)`: a `switch` over the lowercase `Options`
values, throwing on anything else. -/
def has (option : String) : M Bool := do
  let s ← mget
  if option = Options.REFRESH then pure (hasRefreshInterval s)
  else if option = Options.INTERVAL then pure (hasBufferInterval s)
  else if option = Options.BARRIER then pure (hasBufferBarrier s)
  else mthrow (.refreshError ("Invalid option " ++ option))

/-- `dfpRefresh.hasSlotInterval(slot)`: evaluates `slot in self.intervals`,
but the provider object `self` has no `intervals` property (the intervals
map is a local variable of `$get`), so the `in` operator is applied to
`undefined` and raises a TypeError. -/
def hasSlotInterval (_slot : String) : M Bool :=
  mthrow (.typeError "Cannot use in operator to search in undefined")

/-- `dfpRefresh.cancelInterval(slot)`: guards on `hasSlotInterval` and
then cancels and deletes the slot entry of the intervals map. -/
def cancelInterval (slot : String) : M Unit := do
  let h ← hasSlotInterval slot
  if !h then mthrow (.refreshError "No interval for given slot")
  mmodify (fun s => { s with slotIntervals := s.slotIntervals.filter (fun p => !(p.1 = slot)) })

/-! ## Timer lifecycle (enable/disable of the three mechanisms) -/

/-- `enableRefreshInterval()`: registers the sweep task with `$interval`
(fresh timer identity), stores the promise in `intervals.refresh`, and
marks the mechanism enabled. The console assertion only logs. -/
def enableRefreshInterval : M Unit := do
  let s ← mget
  mset { s with intervalsRefresh := some s.nextTimer,
                nextTimer := s.nextTimer + 1,
                isEnabled := { s.isEnabled with refresh := true } }

/-- `disableRefreshInterval()`: when the mechanism is enabled, cancels the
timer, nulls `intervals.refresh` and clears the flag; otherwise no-op. -/
def disableRefreshInterval : M Unit := do
  let s ← mget
  if s.isEnabled.refresh then
    mset { s with intervalsRefresh := none,
                  isEnabled := { s.isEnabled with refresh := false } }

/-- `enableBufferInterval()`: registers the flush task with `$interval`,
stores the promise in `intervals.buffer`, and marks the mechanism
enabled. -/
def enableBufferInterval : M Unit := do
  let s ← mget
  mset { s with intervalsBuffer := some s.nextTimer,
                nextTimer := s.nextTimer + 1,
                isEnabled := { s.isEnabled with interval := true } }

/-- `disableBufferInterval()`: when enabled, cancels the timer, nulls
`intervals.buffer` and clears the flag; otherwise no-op. -/
def disableBufferInterval : M Unit := do
  let s ← mget
  if s.isEnabled.interval then
    mset { s with intervalsBuffer := none,
                  isEnabled := { s.isEnabled with interval := false } }

/-- `enableBufferBarrier()`: flips the barrier flag on (no timer). -/
def enableBufferBarrier : M Unit :=
  mmodify (fun s => { s with isEnabled := { s.isEnabled with barrier := true } })

/-- `disableBufferBarrier()`: flips the barrier flag off. -/
def disableBufferBarrier : M Unit :=
  mmodify (fun s => { s with isEnabled := { s.isEnabled with barrier := false } })

/-- `enable(option)` as called from `prioritize` with a single argument,
so the `yes === false` branch is not taken; an unrecognized option only
trips a logging `console.assert(false)` and is otherwise a no-op. -/
def enable (option : String) : M Unit :=
  if option = Options.REFRESH then enableRefreshInterval
  else if option = Options.INTERVAL then enableBufferInterval
  else if option = Options.BARRIER then enableBufferBarrier
  else pure ()

/-- `disable(option)`: as `enable`, with the disabling bodies. -/
def disable (option : String) : M Unit :=
  if option = Options.REFRESH then disableRefreshInterval
  else if option = Options.INTERVAL then disableBufferInterval
  else if option = Options.BARRIER then disableBufferBarrier
  else pure ()

/-! ## The prioritization algorithm -/

/-- `Array.prototype.filter`: the predicate runs left to right and an
exception thrown by it propagates immediately. -/
def jsFilter (p : String → M Bool) : List String → M (List String)
  | [] => pure []
  | x :: xs => do
    let b ← p x
    let rest ← jsFilter p xs
    if b then pure (x :: rest) else pure rest

/-- `Math.max(a, b)` on JavaScript values: any non-number operand
(after number coercion of `undefined`, i.e. `NaN`) makes the result
`NaN`. -/
def jsMathMax : JsVal → JsVal → JsVal
  | .num a, .num b => .num (max a b)
  | _, _ => .nan

/-- Strict equality `===` on the values compared in the `prioritize`
loop: `undefined === undefined` holds, numbers compare by value, and
`NaN` equals nothing. -/
def jsStrictEq : JsVal → JsVal → Bool
  | .undefinedVal, .undefinedVal => true
  | .num a, .num b => a == b
  | _, _ => false

/-- `Array.prototype.reduce` with no initial value over `Math.max`:
throws a TypeError on an empty array, returns the sole element of a
singleton unchanged, and otherwise folds `Math.max`. -/
def jsReduceMax : List JsVal → M JsVal
  | [] => mthrow (.typeError "Reduce of empty array with no initial value")
  | x :: xs => pure (xs.foldl jsMathMax x)

/-- The `for` loop of `prioritize`: enable the options whose priority is
strictly equal to the maximum, disable the others. -/
def prioritizeLoop : List String → List JsVal → JsVal → M Unit
  | [], _, _ => pure ()
  | _ :: _, [], _ => pure ()
  | o :: os, p :: ps, m => do
    if jsStrictEq p m then enable o else disable o
    prioritizeLoop os ps m

/-- `prioritize()` from the source: filters `Object.keys(Options)` (the
uppercase key names) through `dfpRefresh.has`, maps the survivors to
their `self.priority` entries, reduces to the maximum and runs the
enable/disable loop. -/
def prioritize : M Unit := do
  let options := OptionsKeys
  let available ← jsFilter has options
  let s ← mget
  let priorities := available.map (priorityLookup s.self)
  let maximum ← jsReduceMax priorities
  prioritizeLoop available priorities maximum

/-! ## Dispatching -/

/-- The `tasks.filter(pair => pair.slot !== null)` step of `refresh`:
a `null` buffer entry makes the property read `pair.slot` raise a
TypeError; task objects themselves always carry a non-null slot, so
surviving entries are kept in order. -/
def filterSlots : List (Option Task) → M (List Task)
  | [] => pure []
  | none :: _ => mthrow (.typeError "Cannot read slot of null")
  | some t :: ts => do
    let rest ← filterSlots ts
    pure (t :: rest)

/-- The `tasks.forEach(task => task.deferred.resolve())` step. -/
def resolveAll : List Task → M Unit
  | [] => pure ()
  | t :: ts => do
    memit (.resolve t.deferredId)
    resolveAll ts

/-- `refresh(tasks)` from the source. With `tasks === undefined` it
issues the argument-less `googletag.pubads().refresh()` sweep and then
falls through to `tasks.length`, dereferencing `undefined`. With an
array it returns on emptiness, filters the entries by slot, issues the
batch dispatch and resolves each deferred. -/
def refresh (tasks : Option (List (Option Task))) : M Unit := do
  match tasks with
  | none => do
    memit .dispatchAll
    mthrow (.typeError "Cannot read length of undefined")
  | some ts => do
    if ts.length = 0 then pure ()
    else do
      let fts ← filterSlots ts
      memit (.dispatchBatch (fts.map Task.slot))
      resolveAll fts

/-- `flushBuffer()`: dispatch the buffer, then reset it to `[]`. -/
def flushBuffer : M Unit := do
  let s ← mget
  refresh (some s.buffer)
  mmodify (fun s2 => { s2 with buffer := [] })

/-! ## Timer tick closures -/

/-- The closure `$interval` runs for the global refresh mechanism
(registered by `enableRefreshInterval`): `buffer.fill(null)` followed by
`refresh()` with no argument. -/
def refreshIntervalTick : M Unit := do
  mmodify (fun s => { s with buffer := s.buffer.map (fun _ => none) })
  refresh none

/-- The closure `$interval` runs for the buffer interval mechanism
(registered by `enableBufferInterval`): `refresh(buffer)` followed by
`buffer.fill(null)`. -/
def bufferIntervalTick : M Unit := do
  let s ← mget
  refresh (some s.buffer)
  mmodify (fun s2 => { s2 with buffer := s2.buffer.map (fun _ => none) })

/-! ## Public configuration operations -/

/-- `dfpRefresh.setBufferInterval(interval)`. -/
def setBufferInterval (interval : JSInput) : M Unit := do
  match dfpParseDuration interval with
  | .error e => mthrow e
  | .ok n => do
    mmodify (fun s => { s with self := { s.self with bufferInterval := some n } })
    prioritize

/-- `dfpRefresh.clearBufferInterval()`: warns and returns when no buffer
interval is set; otherwise disables the timer, nulls the setting and
re-prioritizes. -/
def clearBufferInterval : M Unit := do
  let s ← mget
  if !hasBufferInterval s then
    memit (.warn "clearBufferInterval had no effect because no interval was set.")
  else do
    disableBufferInterval
    mmodify (fun s2 => { s2 with self := { s2.self with bufferInterval := none } })
    prioritize

/-- `dfpRefresh.setBufferBarrier(numberOfAds, oneShot)`: stores the
count, defaults `oneShot` to `true` when the argument is `undefined`,
and re-prioritizes. -/
def setBufferBarrier (numberOfAds : Int) (oneShot : Option Bool) : M Unit := do
  mmodify (fun s => { s with self := { s.self with
    bufferBarrier := some numberOfAds,
    oneShotBarrier := oneShot.getD true } })
  prioritize

/-- `dfpRefresh.clearBufferBarrier()`: warns and returns when no barrier
is set; otherwise nulls the setting and re-prioritizes. -/
def clearBufferBarrier : M Unit := do
  let s ← mget
  if !hasBufferBarrier s then
    memit (.warn "clearBufferBarrier had not effect because no barrier was set.")
  else do
    mmodify (fun s2 => { s2 with self := { s2.self with bufferBarrier := none } })
    prioritize

/-- `dfpRefresh.setRefreshInterval(interval)`: parses and stores the
interval, immediately (re)starts the sweep timer, and re-prioritizes. -/
def setRefreshInterval (interval : JSInput) : M Unit := do
  match dfpParseDuration interval with
  | .error e => mthrow e
  | .ok n => do
    mmodify (fun s => { s with self := { s.self with refreshInterval := some n } })
    enableRefreshInterval
    prioritize

/-- `dfpRefresh.clearRefreshInterval()`: warns when no refresh interval
is set but, unlike the two other clear operations, does not return
there; it always proceeds to `disableRefreshInterval()` and
`prioritize()`. -/
def clearRefreshInterval : M Unit := do
  let s ← mget
  if !hasRefreshInterval s then
    memit (.warn "clearRefreshInterval had no effect because no refresh interval was set.")
  disableRefreshInterval
  prioritize

/-- `dfpRefresh.setPriority(option, priority)`: validates both arguments
and writes `self.priority[option]` — without re-running `prioritize`. -/
def setPriority (option : String) (priority : JsVal) : M Unit := do
  ensureValidOption option
  ensureValidPriority priority
  mmodify (fun s => { s with self := { s.self with
    priority := assocSet s.self.priority option priority } })

/-- `dfpRefresh.getPriority(option)`: validates the option and reads
`self.priority[option]`. -/
def getPriority (option : String) : M JsVal := do
  ensureValidOption option
  let s ← mget
  pure (priorityLookup s.self option)

/-! ## Request scheduling -/

/-- `addSlotInterval(task, interval)`: parses the duration, registers a
recurring `$interval` timer for the task and stores its promise under
the slot key of the intervals map, silently overwriting any previous
entry. -/
def addSlotInterval (task : Task) (interval : JSInput) : M Unit := do
  match dfpParseDuration interval with
  | .error e => mthrow e
  | .ok _n => do
    let s ← mget
    mset { s with slotIntervals := assocSet s.slotIntervals task.slot s.nextTimer,
                  nextTimer := s.nextTimer + 1 }

/-- `bufferRefresh(task)`: push the task, return unless the barrier flag
is on, and flush when the buffer length strictly equals the barrier
count, afterwards clearing a one-shot barrier. -/
def bufferRefresh (task : Task) : M Unit := do
  mmodify (fun s => { s with buffer := s.buffer ++ [some task] })
  let s ← mget
  if !s.isEnabled.barrier then pure ()
  else if some (Int.ofNat s.buffer.length) = s.self.bufferBarrier then do
    flushBuffer
    let s2 ← mget
    if s2.self.oneShotBarrier then clearBufferBarrier
  else pure ()

/-- `scheduleRefresh(task)`: buffer when `isBuffering()`, else dispatch
the task immediately as a singleton batch. -/
def scheduleRefresh (task : Task) : M Unit := do
  let b ← isBuffering
  if b then bufferRefresh task else refresh (some [some task])

/-- The `dfpRefresh(slot, interval)` entry point (the callback overload
is irrelevant here): creates the deferred and the task, then either
schedules the refresh or registers the per-slot interval; the returned
number identifies the deferred promise. -/
def dfpRefresh (slot : String) (interval : Option JSInput) : M Nat := do
  let s ← mget
  let did := s.nextDeferred
  mset { s with nextDeferred := did + 1 }
  let task : Task := { slot := slot, deferredId := did }
  match interval with
  | none => do
    scheduleRefresh task
    pure did
  | some iv => do
    addSlotInterval task iv
    pure did

/-! ## The initial state (provider defaults, lines 883-960) -/

/-- The provider defaults: `bufferInterval = 1000`,
`bufferBarrier = null`, `oneShotBarrier = true`,
`refreshInterval = 60 * 60 * 1000`, and priority 1 for each of the three
lowercase mechanism keys. -/
def initSelf : SelfConfig :=
  { bufferInterval := some 1000,
    bufferBarrier := none,
    oneShotBarrier := true,
    refreshInterval := some (60 * 60 * 1000),
    priority := [("refresh", .num 1), ("interval", .num 1), ("barrier", .num 1)] }

/-- The `$get` closure state right after its local declarations: empty
buffer, empty intervals map, and `isEnabled` flags seeded from the
nullness of the three configuration values. -/
def initState : RefreshState :=
  { self := initSelf,
    buffer := [],
    intervalsRefresh := none,
    intervalsBuffer := none,
    slotIntervals := [],
    isEnabled :=
      { refresh := initSelf.refreshInterval.isSome,
        interval := initSelf.bufferInterval.isSome,
        barrier := initSelf.bufferBarrier.isSome },
    nextTimer := 0,
    nextDeferred := 0 }

/-- An engine state whose buffer holds one pending task, as left by one
buffered request. -/
def tickState : RefreshState :=
  { initState with buffer := [some { slot := "slotA", deferredId := 0 }] }

/-- An engine state in which the refresh mechanism was never configured:
`refreshInterval` is `null` and the refresh flag is down. -/
def unsetRefreshState : RefreshState :=
  { initState with
      self := { initSelf with refreshInterval := none },
      isEnabled := { initState.isEnabled with refresh := false } }

/-- An engine state with the global sweep timer pending
(`intervals.refresh` holds a live timer promise). -/
def pendingSweepState : RefreshState :=
  { initState with intervalsRefresh := some 0, nextTimer := 1 }

/-- The barrier-configured state that `setBufferBarrier(3)` writes before
its `prioritize()` call throws. -/
def barrierConfiguredState : RefreshState :=
  { initState with
      self := { initSelf with bufferBarrier := some 3 },
      isEnabled := { initState.isEnabled with barrier := true } }

/-! ## Run lemmas for the embedding monad -/

theorem M_run_bind {α β : Type} (m : M α) (f : α → M β) (s : RefreshState) :
    (m >>= f) s =
      match m s with
      | (Except.error e, s1, ev1) => (Except.error e, s1, ev1)
      | (Except.ok a, s1, ev1) =>
        match f a s1 with
        | (r, s2, ev2) => (r, s2, ev1 ++ ev2) := rfl

theorem M_run_pure {α : Type} (a : α) (s : RefreshState) :
    (pure a : M α) s = (Except.ok a, s, []) := rfl

theorem M_run_mget (s : RefreshState) : mget s = (Except.ok s, s, []) := rfl

theorem M_run_mset (s2 s : RefreshState) : mset s2 s = (Except.ok (), s2, []) := rfl

theorem M_run_mmodify (f : RefreshState → RefreshState) (s : RefreshState) :
    mmodify f s = (Except.ok (), f s, []) := rfl

theorem M_run_memit (e : Event) (s : RefreshState) :
    memit e s = (Except.ok (), s, [e]) := rfl

/-! ## Behavior of the dispatch helpers on null-free buffers -/

theorem filterSlots_all_some (ts : List (Option Task)) (s : RefreshState)
    (h : ∀ x ∈ ts, x ≠ none) :
    filterSlots ts s = (Except.ok (ts.filterMap id), s, []) := by
  induction ts with
  | nil => rfl
  | cons x xs ih =>
    cases x with
    | none => exact absurd rfl (h none (List.mem_cons_self _ _))
    | some t =>
      have ih2 : filterSlots xs s = (Except.ok (xs.filterMap id), s, []) :=
        ih (fun y hy => h y (List.mem_cons_of_mem _ hy))
      show (filterSlots xs >>= fun rest => pure (t :: rest)) s = _
      simp only [M_run_bind, ih2, M_run_pure, List.filterMap_cons, id, List.nil_append]

theorem resolveAll_run (ts : List Task) (s : RefreshState) :
    resolveAll ts s = (Except.ok (), s, ts.map (fun t => Event.resolve t.deferredId)) := by
  induction ts with
  | nil => rfl
  | cons t xs ih =>
    show (memit (Event.resolve t.deferredId) >>= fun _ => resolveAll xs) s = _
    simp only [M_run_bind, M_run_memit, ih, List.map_cons, List.singleton_append]

/-- `refresh` on a nonempty, null-free task array: one batch dispatch of
all the slots followed by the resolution of every deferred, with no
state change and no exception. -/
theorem refresh_batch (ts : List (Option Task)) (s : RefreshState)
    (h : ∀ x ∈ ts, x ≠ none) (hne : ts ≠ []) :
    refresh (some ts) s =
      (Except.ok (), s,
       Event.dispatchBatch ((ts.filterMap id).map Task.slot) ::
         (ts.filterMap id).map (fun t => Event.resolve t.deferredId)) := by
  show (if ts.length = 0 then (pure () : M Unit)
        else do
          let fts ← filterSlots ts
          memit (Event.dispatchBatch (fts.map Task.slot))
          resolveAll fts) s = _
  rw [if_neg (by simpa using hne)]
  simp only [M_run_bind, filterSlots_all_some ts s h, M_run_memit, resolveAll_run,
    List.nil_append, List.singleton_append]

/-! ## The claims -/

/-- C1. The claim says the prioritization algorithm enables exactly the
installed mechanisms of maximal priority weight and disables the rest,
after every configuration mutation. In the code, `prioritize` filters
`Object.keys(Options)` — the uppercase key names — through
`dfpRefresh.has`, whose `switch` recognizes only the lowercase values,
so on every state the very first filter step throws a `DFPRefreshError`
and no mechanism is ever enabled or disabled (state and event trace are
untouched). -/
theorem C1_prioritize_always_throws (s : RefreshState) :
    prioritize s = (Except.error (JSError.refreshError "Invalid option REFRESH"), s, []) :=
  rfl

/-- C2. The claim says a buffered request reaching the barrier count
flushes the buffer as one batch and, for a one-shot barrier, uninstalls
it. In the code, `setBufferBarrier(3)` itself throws out of
`prioritize()` (after writing the barrier count), and a subsequent
refresh request — even on a state with the barrier flag forced on —
throws from `isBuffering()` before anything is buffered, so no dispatch
is ever emitted. -/
theorem C2_barrier_scenario_throws :
    setBufferBarrier 3 none initState =
      (Except.error (JSError.refreshError "Invalid option REFRESH"),
       { initState with self := { initSelf with bufferBarrier := some 3 } }, []) ∧
    dfpRefresh "slot1" none barrierConfiguredState =
      (Except.error (JSError.refreshError "Invalid option barrier"),
       { barrierConfiguredState with nextDeferred := 1 }, []) :=
  ⟨rfl, rfl⟩

/-- C3. The claim says `isBuffering()` returns, without any error, true
exactly when the Interval or the Barrier mechanism is enabled. In the
code, `isBuffering` passes the lowercase `Options.BARRIER` value to
`dfpRefresh.isEnabled`, whose `ensureValidOption` tests membership among
the uppercase `Options` keys, so on every state the call throws a
`DFPRefreshError` and never returns a boolean. -/
theorem C3_isBuffering_always_throws (s : RefreshState) :
    isBuffering s = (Except.error (JSError.refreshError "Invalid option barrier"), s, []) :=
  rfl

/-- C4 counterexample. The claim says a buffer-flush tick leaves the
buffer empty with length reset to 0; on a state with one buffered task
the tick leaves the buffer at length 1 (a single null entry). -/
theorem C4_counterexample :
    ((bufferIntervalTick tickState).2.1.buffer.length = 0) = False :=
  eq_false (by decide)

/-- C4 (amended). Each tick of the buffer-flush timer on a nonempty
buffer free of null entries dispatches all buffered tasks as one batch,
resolves their completion handles, and overwrites every buffer entry
with null, preserving the buffer length instead of resetting it to 0. -/
theorem C4_bufferIntervalTick_fills_null (s : RefreshState)
    (h : ∀ x ∈ s.buffer, x ≠ none) (hne : s.buffer ≠ []) :
    bufferIntervalTick s =
      (Except.ok (), { s with buffer := s.buffer.map (fun _ => none) },
       Event.dispatchBatch ((s.buffer.filterMap id).map Task.slot) ::
         (s.buffer.filterMap id).map (fun t => Event.resolve t.deferredId)) := by
  show (mget >>= fun s0 => refresh (some s0.buffer) >>= fun _ =>
    mmodify (fun s2 => { s2 with buffer := s2.buffer.map (fun _ => none) })) s = _
  simp only [M_run_bind, M_run_mget, refresh_batch s.buffer s h hne, M_run_mmodify,
    List.nil_append, List.append_nil]

/-- C4 witness: the amended tick behavior evaluated on the state with
exactly one buffered task. -/
theorem C4_witness :
    bufferIntervalTick tickState =
      (Except.ok (), { tickState with buffer := [none] },
       [Event.dispatchBatch ["slotA"], Event.resolve 0]) :=
  C4_bufferIntervalTick_fills_null tickState (by decide) (by decide)

/-- C5. Each tick of the global refresh timer issues the argument-less
dispatch-all call, and replaces every buffer entry with null while
preserving the buffer length (it then also throws a TypeError from
`tasks.length` on the undefined argument, which happens after both
claimed effects). -/
theorem C5_refreshIntervalTick_preserves_length (s : RefreshState) :
    refreshIntervalTick s =
      (Except.error (JSError.typeError "Cannot read length of undefined"),
       { s with buffer := List.replicate s.buffer.length none },
       [Event.dispatchAll]) ∧
    (refreshIntervalTick s).2.1.buffer.length = s.buffer.length := by
  have h : refreshIntervalTick s =
      (Except.error (JSError.typeError "Cannot read length of undefined"),
       { s with buffer := s.buffer.map (fun _ => none) },
       [Event.dispatchAll]) := rfl
  rw [h]
  simp [List.map_const']

/-- C6. The claim says a refresh request with no interval argument and
no buffering mechanism enabled dispatches immediately as a singleton
batch. In the code, every such request reaches `isBuffering()` through
`scheduleRefresh` and throws a `DFPRefreshError` on every state —
including states with all mechanisms disabled — with no dispatch event;
only the deferred counter has advanced. -/
theorem C6_requestRefresh_always_throws (s : RefreshState) (slot : String) :
    dfpRefresh slot none s =
      (Except.error (JSError.refreshError "Invalid option barrier"),
       { s with nextDeferred := s.nextDeferred + 1 }, []) :=
  rfl

/-- C7. The claim says a second `requestRefresh(slot, interval)` for the
same slot fails with DuplicateIntervalError and `cancelInterval` on a
slot without an interval fails with NoIntervalError. In the code,
`cancelInterval` throws a TypeError on every state and slot (its guard
reads the nonexistent `self.intervals`), and a duplicate registration
succeeds silently, overwriting the slot's registry entry while the old
timer is never cancelled. -/
theorem C7_slot_interval_registry :
    (∀ (s : RefreshState) (slot : String),
      cancelInterval slot s =
        (Except.error (JSError.typeError "Cannot use in operator to search in undefined"),
         s, [])) ∧
    (dfpRefresh "slotA" (some (JSInput.num 60000)) initState).1 = Except.ok 0 ∧
    (dfpRefresh "slotA" (some (JSInput.num 60000)) initState).2.1.slotIntervals =
      [("slotA", 0)] ∧
    (dfpRefresh "slotA" (some (JSInput.num 60000))
        (dfpRefresh "slotA" (some (JSInput.num 60000)) initState).2.1).1 = Except.ok 1 ∧
    (dfpRefresh "slotA" (some (JSInput.num 60000))
        (dfpRefresh "slotA" (some (JSInput.num 60000)) initState).2.1).2.1.slotIntervals =
      [("slotA", 1)] :=
  ⟨fun _ _ => rfl, rfl, rfl, rfl, rfl⟩

/-- C8. The first half of the claim holds: clearing while the sweep
timer is pending cancels it (`intervals.refresh` becomes null), so no
further sweep can fire. The second half fails: on a state whose refresh
mechanism is unset, `clearRefreshInterval` emits the warning but — with
no early return, unlike the other two clear operations — falls through
to `prioritize()` and throws a `DFPRefreshError` instead of being a
non-fatal no-op. -/
theorem C8_clearRefreshInterval :
    (clearRefreshInterval pendingSweepState).2.1.intervalsRefresh = none ∧
    clearRefreshInterval unsetRefreshState =
      (Except.error (JSError.refreshError "Invalid option REFRESH"),
       unsetRefreshState,
       [Event.warn "clearRefreshInterval had no effect because no refresh interval was set."]) :=
  ⟨rfl, rfl⟩

/-- C9. Numbers pass through unchanged; `5min`, `2s`, `7ms`, `2h` convert
per the unit table; `bogus` raises the format error; non-string/non-number
input raises the type error. But a suffix-less string is converted as
HOURS, not milliseconds: the `match.length === 2` test of `convert` never
holds (a JavaScript match array for the two-group regex always has length
3), so `"1500"` yields 5400000000 instead of 1500. -/
theorem C9_dfpParseDuration_units :
    dfpParseDuration (JSInput.num 1500) = Except.ok 1500 ∧
    dfpParseDuration (JSInput.str "5min") = Except.ok 300000 ∧
    dfpParseDuration (JSInput.str "2s") = Except.ok 2000 ∧
    dfpParseDuration (JSInput.str "7ms") = Except.ok 7 ∧
    dfpParseDuration (JSInput.str "2h") = Except.ok 7200000 ∧
    dfpParseDuration (JSInput.str "bogus") =
      Except.error (JSError.durationError "Invalid interval: bogus") ∧
    dfpParseDuration JSInput.other =
      Except.error (JSError.typeError "must be of number or string type") ∧
    dfpParseDuration (JSInput.str "1500") = Except.ok 5400000000 :=
  ⟨rfl, rfl, rfl, rfl, rfl, rfl, rfl, rfl⟩

/-- C10. Immediately after construction of the `$get` closure state,
before any configuration call, the buffer interval holds the default
1000 ms and the refresh interval the default 3600000 ms, both `has`
accessors return true, and the Interval and Refresh mechanisms start
flagged enabled (the Barrier does not), so the initial state is not the
unconfigured immediate-dispatch mode. -/
theorem C10_initial_state :
    hasBufferInterval initState = true ∧
    hasRefreshInterval initState = true ∧
    getBufferInterval initState = some 1000 ∧
    getRefreshInterval initState = some 3600000 ∧
    bufferIntervalIsEnabled initState = true ∧
    refreshIntervalIsEnabled initState = true ∧
    bufferBarrierIsEnabled initState = false := by
  decide

end AngularDfp
